import Mathlib

/-!
Shallow embedding of the transaction ledger and quantity reconciliation
engine of the fixed-assets-management repository
(app/models.py, app/schemas.py, app/routes/transactions.py).

Conventions of the embedding:
* SQL integer columns become `Int` (Python integers are unbounded and the
  schema places no CHECK constraint, so quantities may go negative).
* `Numeric(10, 2)` monetary columns become `ℚ`.
* The database session is modelled as a working copy of the committed
  state: each route handler is a function `DBState → Except ApiError DBState`.
  Every error path in the source either calls `db.session.rollback()` or
  returns without `db.session.commit()` (Flask-SQLAlchemy discards the
  uncommitted session at request teardown), so an error result carries no
  state: the committed state is unchanged.
* `transaction_type` lives on the transaction header (`True` = IN,
  `False` = OUT), as used by every route handler and by populate_data.py.
-/

namespace FixedAssets

/-- A row of the `warehouses` table (the fields the ledger reads). -/
structure Warehouse where
  id : Nat
  branch_id : Nat
  deriving DecidableEq, Repr

/-- A row of the `fixed_assets` table (the fields the ledger reads).
`quantity` is an SQL Integer with no CHECK constraint, hence `Int`. -/
structure FixedAsset where
  id : Nat
  quantity : Int
  deriving DecidableEq, Repr

/-- A row of the `transactions` table (the fields the ledger reads).
`transaction_type` is `true` for IN and `false` for OUT. -/
structure Transaction where
  id : Nat
  custom_id : String
  warehouse_id : Nat
  transaction_type : Bool
  deriving DecidableEq, Repr

/-- A row of the `asset_transactions` table. `amount` is nullable. -/
structure AssetTransaction where
  id : Nat
  transaction_id : Nat
  asset_id : Nat
  quantity : Int
  amount : Option ℚ
  total_value : Option ℚ
  deriving DecidableEq, Repr

/-- The committed database state, plus the autoincrement counters. -/
structure DBState where
  warehouses : List Warehouse
  assets : List FixedAsset
  transactions : List Transaction
  asset_transactions : List AssetTransaction
  next_transaction_id : Nat
  next_line_id : Nat
  deriving DecidableEq, Repr

/-- `db.session.get(Warehouse, wid)`. -/
def lookupWarehouse (σ : DBState) (wid : Nat) : Option Warehouse :=
  σ.warehouses.find? (fun w => w.id == wid)

/-- `db.session.get(FixedAsset, aid)` against an explicit asset list
(the session working copy). -/
def lookupAssetIn (assets : List FixedAsset) (aid : Nat) : Option FixedAsset :=
  assets.find? (fun a => a.id == aid)

/-- `db.session.get(FixedAsset, aid)` against the committed state. -/
def lookupAsset (σ : DBState) (aid : Nat) : Option FixedAsset :=
  lookupAssetIn σ.assets aid

/-- `db.session.get(Transaction, tid)`. -/
def lookupTransaction (σ : DBState) (tid : Nat) : Option Transaction :=
  σ.transactions.find? (fun t => t.id == tid)

/-- `db.session.get(AssetTransaction, lid)`. -/
def lookupLine (σ : DBState) (lid : Nat) : Option AssetTransaction :=
  σ.asset_transactions.find? (fun l => l.id == lid)

/-- `asset.quantity += delta` on the one asset with the given id
(a no-op when the id is absent, matching the `if asset:` guards). -/
def adjustAssetList (assets : List FixedAsset) (aid : Nat) (delta : Int) :
    List FixedAsset :=
  assets.map (fun a => if a.id == aid then { a with quantity := a.quantity + delta } else a)

/-- The signed quantity delta a line applies when first recorded:
`asset.quantity += quantity` for IN, `asset.quantity -= quantity` for OUT
(routes/transactions.py lines 324-327, 610-613, 746-749, 776-779). -/
def applyLineEffect (transaction_type : Bool) (quantity : Int) : Int :=
  if transaction_type then quantity else -quantity

/-- The signed quantity delta that undoes a previously applied line:
`asset.quantity -= quantity` for a line applied as IN,
`asset.quantity += quantity` for a line applied as OUT
(routes/transactions.py lines 477-480, 726-729, 756-759, 834-837). -/
def reverseLineEffect (transaction_type : Bool) (quantity : Int) : Int :=
  if transaction_type then -quantity else quantity

/-- `AssetTransaction.calculate_total_value` (models.py lines 126-131):
`total_value = quantity * amount` when both are present, else NULL
(`quantity` is a non-nullable column, so only `amount` can be missing). -/
def calculate_total_value (l : AssetTransaction) : AssetTransaction :=
  match l.amount with
  | some amt => { l with total_value := some ((l.quantity : ℚ) * amt) }
  | none => { l with total_value := none }

/-- One element of the `asset_transactions` array of a create request
(AssetTransactionCreateSchema fields). -/
structure LineInput where
  asset_id : Nat
  quantity : Int
  amount : Option ℚ
  deriving DecidableEq, Repr

/-- The body of `POST /transactions/` (TransactionCreateSchema fields the
ledger reads). -/
structure CreateReq where
  warehouse_id : Nat
  transaction_type : Bool
  asset_transactions : List LineInput
  deriving DecidableEq, Repr

/-- The errors the route handlers signal. -/
inductive ApiError where
  | validationError
  | warehouseNotFound
  | assetNotFound (asset_id : Nat)
  | insufficientQuantity (asset_id : Nat)
  | transactionNotFound
  | lineNotFound
  | integrityError
  | internalError
  deriving DecidableEq, Repr

/-- The field-level failures of a single line's validation. -/
inductive LineError where
  | assetNotFound
  | invalidQuantity
  | invalidAmount
  | insufficientStock
  deriving DecidableEq, Repr

/-- The field validators of `AssetTransactionCreateSchema`
(schemas.py lines 137-157): the referenced asset must exist, the quantity
must be strictly positive, and the amount, when present, must not be
negative.  Marshmallow collects every failing field, hence a list. -/
def schemaLineErrors (σ : DBState) (l : LineInput) : List LineError :=
  (if (lookupAsset σ l.asset_id).isNone then [LineError.assetNotFound] else []) ++
  (if l.quantity ≤ 0 then [LineError.invalidQuantity] else []) ++
  (match l.amount with
   | some a => if a < 0 then [LineError.invalidAmount] else []
   | none => [])

/-- Validation of a single line as the create path composes it: first the
schema field validators, then, only when those pass, the route-level
insufficient-stock check for OUT transactions
(routes/transactions.py lines 304-321). -/
def lineValidationErrors (σ : DBState) (transaction_type : Bool) (l : LineInput) :
    List LineError :=
  let es := schemaLineErrors σ l
  if es.isEmpty then
    match lookupAsset σ l.asset_id with
    | none => [LineError.assetNotFound]
    | some a =>
        if transaction_type = false ∧ a.quantity < l.quantity then
          [LineError.insufficientStock]
        else []
  else es

/-- `TransactionCreateSchema.load` succeeds iff the warehouse exists, the
`asset_transactions` array is non-empty (schemas.py lines 120-123), and
every line passes its field validators. -/
def createSchemaOk (σ : DBState) (req : CreateReq) : Bool :=
  (lookupWarehouse σ req.warehouse_id).isSome
  && !req.asset_transactions.isEmpty
  && req.asset_transactions.all (fun l => (schemaLineErrors σ l).isEmpty)

/-- The transaction count of `Transaction.generate_custom_id`
(models.py lines 91-100): transactions joined to their warehouse and
filtered on `Warehouse.branch_id == branch_id`. -/
def branchTransactionCount (σ : DBState) (branch_id : Nat) : Nat :=
  (σ.transactions.filter (fun t =>
    match lookupWarehouse σ t.warehouse_id with
    | some w => w.branch_id == branch_id
    | none => false)).length

/-- `Transaction.generate_custom_id` (models.py lines 91-100):
the string `"<branch_id>-<count + 1>"`. -/
def generate_custom_id (σ : DBState) (branch_id : Nat) : String :=
  toString branch_id ++ "-" ++ toString (branchTransactionCount σ branch_id + 1)

/-- The per-line loop of `TransactionList.post`
(routes/transactions.py lines 301-340), threading the session's working
copy of the assets: look the asset up in the working copy, reject an OUT
line exceeding the working quantity, apply the line's effect, and record
the new `AssetTransaction` row (whose `total_value` the model constructor
computes). -/
def processLines (transaction_type : Bool) (txid : Nat) :
    List FixedAsset → Nat → List LineInput →
    Except ApiError (List FixedAsset × List AssetTransaction)
  | assets, _, [] => Except.ok (assets, [])
  | assets, lineId, l :: rest =>
    match lookupAssetIn assets l.asset_id with
    | none => Except.error (ApiError.assetNotFound l.asset_id)
    | some a =>
        if transaction_type = false ∧ a.quantity < l.quantity then
          Except.error (ApiError.insufficientQuantity l.asset_id)
        else
          let assets1 := adjustAssetList assets l.asset_id
            (applyLineEffect transaction_type l.quantity)
          let row := calculate_total_value
            { id := lineId, transaction_id := txid, asset_id := l.asset_id,
              quantity := l.quantity, amount := l.amount, total_value := none }
          match processLines transaction_type txid assets1 (lineId + 1) rest with
          | Except.error e => Except.error e
          | Except.ok (assetsFin, rows) => Except.ok (assetsFin, row :: rows)

/-- `TransactionList.post` (routes/transactions.py lines 211-359):
schema validation, warehouse resolution, custom-id generation, header
insert (where the UNIQUE constraint on `custom_id` would fire at flush),
then the per-line loop; commit only when everything passed. -/
def createTransaction (σ : DBState) (req : CreateReq) : Except ApiError DBState :=
  if ¬ createSchemaOk σ req then Except.error ApiError.validationError
  else
    match lookupWarehouse σ req.warehouse_id with
    | none => Except.error ApiError.warehouseNotFound
    | some w =>
        let cid := generate_custom_id σ w.branch_id
        let txid := σ.next_transaction_id
        if σ.transactions.any (fun t => t.custom_id == cid) then
          Except.error ApiError.integrityError
        else
          match processLines req.transaction_type txid σ.assets σ.next_line_id
              req.asset_transactions with
          | Except.error e => Except.error e
          | Except.ok (assetsFin, rows) =>
              Except.ok { σ with
                assets := assetsFin,
                transactions := σ.transactions ++
                  [{ id := txid, custom_id := cid,
                     warehouse_id := req.warehouse_id,
                     transaction_type := req.transaction_type }],
                asset_transactions := σ.asset_transactions ++ rows,
                next_transaction_id := txid + 1,
                next_line_id := σ.next_line_id + rows.length }

/-- The body of `PUT /transactions/<id>` after
`transaction_schema.load(json_data, partial=True)`: the loadable fields the
ledger reads (`custom_id` is dump-only and additionally deleted by the
route, so it cannot appear). -/
structure TxPatch where
  warehouse_id : Option Nat := none
  transaction_type : Option Bool := none
  deriving DecidableEq, Repr

/-- The `@validates("warehouse_id")` check of TransactionSchema
(schemas.py lines 68-72), run when the patch carries the field. -/
def txPatchValid (σ : DBState) (p : TxPatch) : Bool :=
  match p.warehouse_id with
  | some wid => (lookupWarehouse σ wid).isSome
  | none => true

/-- The `setattr` loop of `TransactionResource.put`
(routes/transactions.py lines 431-432). `custom_id` is never assigned
(lines 427-429 delete it from the data). -/
def applyTxPatch (t : Transaction) (p : TxPatch) : Transaction :=
  { t with
    warehouse_id := p.warehouse_id.getD t.warehouse_id,
    transaction_type := p.transaction_type.getD t.transaction_type }

/-- `TransactionResource.put` (routes/transactions.py lines 406-451):
load the transaction, validate the partial patch, set the attributes,
commit.  No asset quantity is touched. -/
def updateTransaction (σ : DBState) (tid : Nat) (p : TxPatch) :
    Except ApiError DBState :=
  match lookupTransaction σ tid with
  | none => Except.error ApiError.transactionNotFound
  | some _ =>
      if ¬ txPatchValid σ p then Except.error ApiError.validationError
      else
        Except.ok { σ with
          transactions := σ.transactions.map (fun t =>
            if t.id == tid then applyTxPatch t p else t) }

/-- The reversal loop of `TransactionResource.delete`
(routes/transactions.py lines 472-480): for every line of the
transaction, undo its effect on the asset's quantity (skipping assets
that no longer resolve, per the `if asset:` guard, which the map-based
adjustment reproduces). -/
def reverseTxLines (transaction_type : Bool) :
    List FixedAsset → List AssetTransaction → List FixedAsset
  | assets, [] => assets
  | assets, l :: rest =>
      reverseTxLines transaction_type
        (adjustAssetList assets l.asset_id
          (reverseLineEffect transaction_type l.quantity)) rest

/-- `TransactionResource.delete` (routes/transactions.py lines 461-500):
reverse every line's quantity effect under the transaction's current
direction, then delete the header (the cascade removes the lines). -/
def deleteTransaction (σ : DBState) (tid : Nat) : Except ApiError DBState :=
  match lookupTransaction σ tid with
  | none => Except.error ApiError.transactionNotFound
  | some tx =>
      let ls := σ.asset_transactions.filter (fun l => l.transaction_id == tid)
      Except.ok { σ with
        assets := reverseTxLines tx.transaction_type σ.assets ls,
        transactions := σ.transactions.filter (fun t => !(t.id == tid)),
        asset_transactions :=
          σ.asset_transactions.filter (fun l => !(l.transaction_id == tid)) }

/-- The body of `PUT /asset-transactions/<id>` after
`asset_transaction_create_schema.load(json_data, partial=True)`.
`amount` is an `allow_none` field, so a patch can carry an explicit NULL:
hence the nested option. -/
structure LinePatch where
  asset_id : Option Nat := none
  quantity : Option Int := none
  amount : Option (Option ℚ) := none
  deriving DecidableEq, Repr

/-- The field validators of AssetTransactionCreateSchema applied to a
partial patch: each present field is validated as on create
(schemas.py lines 143-157). -/
def linePatchValid (σ : DBState) (p : LinePatch) : Bool :=
  (match p.asset_id with
   | some aid => (lookupAsset σ aid).isSome
   | none => true)
  && (match p.quantity with
   | some q => decide (0 < q)
   | none => true)
  && (match p.amount with
   | some (some a) => decide (0 ≤ a)
   | _ => true)

/-- The `setattr` loop of `AssetTransactionResource.put` followed by
`calculate_total_value()` (routes/transactions.py lines 781-786). -/
def applyLinePatch (l : AssetTransaction) (p : LinePatch) : AssetTransaction :=
  calculate_total_value { l with
    asset_id := p.asset_id.getD l.asset_id,
    quantity := p.quantity.getD l.quantity,
    amount := match p.amount with
      | some v => v
      | none => l.amount }

/-- `AssetTransactionResource.put` (routes/transactions.py lines 688-806):
when the asset changes, reverse the old asset and apply to the new one
(after an availability check for OUT); when only the quantity changes,
reverse then reapply on the same asset.  Error paths return without
committing, so they carry no state. -/
def updateAssetTransaction (σ : DBState) (lid : Nat) (p : LinePatch) :
    Except ApiError DBState :=
  match lookupLine σ lid with
  | none => Except.error ApiError.lineNotFound
  | some line =>
      if ¬ linePatchValid σ p then Except.error ApiError.validationError
      else
        match lookupTransaction σ line.transaction_id with
        | none => Except.error ApiError.internalError
        | some parent =>
            let t := parent.transaction_type
            let old_quantity := line.quantity
            let old_asset_id := line.asset_id
            let new_quantity := p.quantity.getD old_quantity
            let new_asset_id := p.asset_id.getD old_asset_id
            let rows := σ.asset_transactions.map (fun r =>
              if r.id == lid then applyLinePatch r p else r)
            if new_asset_id ≠ old_asset_id then
              let assets1 := adjustAssetList σ.assets old_asset_id
                (reverseLineEffect t old_quantity)
              match lookupAssetIn assets1 new_asset_id with
              | none => Except.error (ApiError.assetNotFound new_asset_id)
              | some new_asset =>
                  if t = false ∧ new_asset.quantity < new_quantity then
                    Except.error (ApiError.insufficientQuantity new_asset_id)
                  else
                    let assets2 := adjustAssetList assets1 new_asset_id
                      (applyLineEffect t new_quantity)
                    Except.ok { σ with assets := assets2, asset_transactions := rows }
            else
              match lookupAssetIn σ.assets old_asset_id with
              | none =>
                  Except.ok { σ with asset_transactions := rows }
              | some _ =>
                  let assets1 := adjustAssetList σ.assets old_asset_id
                    (reverseLineEffect t old_quantity)
                  match lookupAssetIn assets1 old_asset_id with
                  | none => Except.ok { σ with asset_transactions := rows }
                  | some asset1 =>
                      if t = false ∧ asset1.quantity < new_quantity then
                        Except.error (ApiError.insufficientQuantity old_asset_id)
                      else
                        let assets2 := adjustAssetList assets1 old_asset_id
                          (applyLineEffect t new_quantity)
                        Except.ok { σ with assets := assets2, asset_transactions := rows }

/-- `AssetTransactionResource.delete` (routes/transactions.py lines
816-857): reverse the line's quantity effect under the parent
transaction's current direction, then delete the row. -/
def deleteAssetTransaction (σ : DBState) (lid : Nat) : Except ApiError DBState :=
  match lookupLine σ lid with
  | none => Except.error ApiError.lineNotFound
  | some line =>
      match lookupTransaction σ line.transaction_id with
      | none => Except.error ApiError.internalError
      | some parent =>
          let assets1 := adjustAssetList σ.assets line.asset_id
            (reverseLineEffect parent.transaction_type line.quantity)
          Except.ok { σ with
            assets := assets1,
            asset_transactions :=
              σ.asset_transactions.filter (fun l => !(l.id == lid)) }

/-- Rounding of a rational to the nearest integer, ties to even: the
behaviour of Python's built-in `round` used by `AssetAverage.get`
(float representation noise at exact ties is not modelled). -/
def roundHalfEven (x : ℚ) : ℤ :=
  let f := ⌊x⌋
  let r := x - f
  if r < 1/2 then f
  else if 1/2 < r then f + 1
  else if f % 2 = 0 then f else f + 1

/-- `round(value, 2)`: round to two decimal places, ties to even. -/
def round2 (x : ℚ) : ℚ := (roundHalfEven (100 * x) : ℚ) / 100

/-- The rows feeding the average of `AssetAverage.get`
(routes/transactions.py lines 1291-1299): `amount` of every asset
transaction of the given asset joined to an IN-direction header, with
`amount > 0` (the SQL filter also drops NULL amounts). -/
def inboundAmounts (σ : DBState) (aid : Nat) : List ℚ :=
  σ.asset_transactions.filterMap (fun l =>
    if l.asset_id == aid then
      match lookupTransaction σ l.transaction_id with
      | some tx =>
          if tx.transaction_type then
            match l.amount with
            | some a => if 0 < a then some a else none
            | none => none
          else none
      | none => none
    else none)

/-- `AssetAverage.get` (routes/transactions.py lines 1279-1304):
`AVG` of the inbound amounts (NULL when no row, falsy when zero, both
reported as `0.0`), otherwise `round(avg, 2)`. -/
def asset_average (σ : DBState) (aid : Nat) : ℚ :=
  let amts := inboundAmounts σ aid
  if amts.isEmpty then 0
  else
    let avg := amts.sum / (amts.length : ℚ)
    if avg = 0 then 0 else round2 avg

/-- A boundary operation of the ledger. -/
inductive Op where
  | create (req : CreateReq)
  | updateTx (tid : Nat) (p : TxPatch)
  | deleteTx (tid : Nat)
  | updateLine (lid : Nat) (p : LinePatch)
  | deleteLine (lid : Nat)
  deriving DecidableEq, Repr

/-- Dispatch one boundary operation to its route handler. -/
def execOp (σ : DBState) : Op → Except ApiError DBState
  | Op.create req => createTransaction σ req
  | Op.updateTx tid p => updateTransaction σ tid p
  | Op.deleteTx tid => deleteTransaction σ tid
  | Op.updateLine lid p => updateAssetTransaction σ lid p
  | Op.deleteLine lid => deleteAssetTransaction σ lid

/-- The committed state after one request: the handler's result on
success, the untouched previous state when the handler signalled an
error (rollback / teardown discards the session). -/
def applyOp (σ : DBState) (op : Op) : DBState :=
  match execOp σ op with
  | Except.ok σ1 => σ1
  | Except.error _ => σ

/-- The committed state after a sequence of requests. -/
def runOps (σ : DBState) (ops : List Op) : DBState :=
  ops.foldl applyOp σ

/-- Modelled from the spec: the conservation invariant's right-hand side,
`sum(IN quantities applied) − sum(OUT quantities applied)` over the
currently stored lines of the given asset, each classified by its
header's current direction. -/
def appliedLedgerSum (σ : DBState) (aid : Nat) : Int :=
  (σ.asset_transactions.filterMap (fun l =>
    if l.asset_id == aid then
      match lookupTransaction σ l.transaction_id with
      | some tx =>
          some (if tx.transaction_type then l.quantity else -l.quantity)
      | none => none
    else none)).sum

/-- A minimal populated database: one branch-1 warehouse and one asset
with zero stock. -/
def exState : DBState :=
  { warehouses := [{ id := 1, branch_id := 1 }],
    assets := [{ id := 1, quantity := 0 }],
    transactions := [],
    asset_transactions := [],
    next_transaction_id := 1,
    next_line_id := 1 }

/-- A request recording an IN movement of five units of asset 1. -/
def createIn5 : Op :=
  Op.create { warehouse_id := 1, transaction_type := true,
              asset_transactions := [{ asset_id := 1, quantity := 5, amount := none }] }

/-- A request recording an OUT movement of five units of asset 1. -/
def createOut5 : Op :=
  Op.create { warehouse_id := 1, transaction_type := false,
              asset_transactions := [{ asset_id := 1, quantity := 5, amount := none }] }

/-- A header update flipping transaction 1's direction to OUT. -/
def flipTx1 : Op :=
  Op.updateTx 1 { transaction_type := some false }

/-- An OUT request for two lines of asset 1 whose second line exceeds
the stock remaining after the first (used to exercise mid-request
failure). -/
def outReq2 : CreateReq :=
  { warehouse_id := 1, transaction_type := false,
    asset_transactions :=
      [{ asset_id := 1, quantity := 1, amount := none },
       { asset_id := 1, quantity := 100, amount := none }] }

/-- Whether some asset of the committed state has negative stock. -/
def hasNegativeAsset (σ : DBState) : Bool :=
  σ.assets.any (fun a => a.quantity < 0)

/-- The `custom_id` column of the `transactions` table. -/
def customIds (σ : DBState) : List String :=
  σ.transactions.map (fun t => t.custom_id)

/-- The branch a transaction belongs to, derived through its warehouse. -/
def branchOf (σ : DBState) (t : Transaction) : Option Nat :=
  (lookupWarehouse σ t.warehouse_id).map (fun w => w.branch_id)

/-- Modelled from the spec: `averageInboundCost(assetID)` returns the
arithmetic mean of `unitAmount` over all IN lines for that asset with
`unitAmount > 0`, or `0` if none exist. -/
def averageInboundCostSpec (σ : DBState) (aid : Nat) : ℚ :=
  let amts := inboundAmounts σ aid
  if amts.isEmpty then 0 else amts.sum / (amts.length : ℚ)

/-- A populated database for the average-cost computation: one IN
transaction whose three lines for asset 1 carry amounts 0.01, 0.01
and 0.02. -/
def avgExState : DBState :=
  { warehouses := [{ id := 1, branch_id := 1 }],
    assets := [{ id := 1, quantity := 4 }],
    transactions :=
      [{ id := 1, custom_id := "1-1", warehouse_id := 1, transaction_type := true }],
    asset_transactions :=
      [{ id := 1, transaction_id := 1, asset_id := 1, quantity := 1,
         amount := some (1/100), total_value := some (1/100) },
       { id := 2, transaction_id := 1, asset_id := 1, quantity := 1,
         amount := some (1/100), total_value := some (1/100) },
       { id := 3, transaction_id := 1, asset_id := 1, quantity := 2,
         amount := some (2/100), total_value := some (4/100) }],
    next_transaction_id := 2,
    next_line_id := 4 }

/-! ## Theorems -/

theorem adjustAssetList_add (assets : List FixedAsset) (aid : Nat) (d e : Int) :
    adjustAssetList (adjustAssetList assets aid d) aid e =
    adjustAssetList assets aid (d + e) := by
  unfold adjustAssetList
  rw [List.map_map]
  apply List.map_congr_left
  intro a _
  by_cases h : a.id = aid
  · simp [h, add_assoc]
  · simp [h]

theorem adjustAssetList_zero (assets : List FixedAsset) (aid : Nat) :
    adjustAssetList assets aid 0 = assets := by
  induction assets with
  | nil => rfl
  | cons a tl ih =>
      simp only [adjustAssetList, List.map_cons] at *
      cases h : (a.id == aid) <;> simp [h, ih]

/-- Claim C7: for every line and both directions, applying the line's
quantity effect to an asset (`+quantity` for IN, `-quantity` for OUT) and
then applying its reversal (`-quantity` for a line applied as IN,
`+quantity` for a line applied as OUT) returns the asset's quantity — and
the whole asset table — to its exact pre-apply value.  `reverseLineEffect`
is the single reversal used by both the update path and the delete path of
the embedding. -/
theorem reversal_roundtrip :
    (∀ (v q : Int) (t : Bool),
      v + applyLineEffect t q + reverseLineEffect t q = v) ∧
    (∀ (assets : List FixedAsset) (aid : Nat) (t : Bool) (q : Int),
      adjustAssetList (adjustAssetList assets aid (applyLineEffect t q)) aid
        (reverseLineEffect t q) = assets) := by
  constructor
  · intro v q t
    cases t <;> simp [applyLineEffect, reverseLineEffect, add_assoc]
  · intro assets aid t q
    rw [adjustAssetList_add]
    cases t <;> simp [applyLineEffect, reverseLineEffect, adjustAssetList_zero]

/-- Claim C8: `nextCustomID(branchID)` returns the string
`"<branchID>-<n>"` where `n` is one plus the count of transactions
already recorded for that branch (a transaction belongs to the branch its
warehouse resolves to). -/
theorem generate_custom_id_spec (σ : DBState) (b : Nat) :
    generate_custom_id σ b =
      toString b ++ "-" ++
        toString ((σ.transactions.countP (fun t => branchOf σ t == some b)) + 1) := by
  have hfun : ∀ t ∈ σ.transactions,
      (fun t => match lookupWarehouse σ t.warehouse_id with
        | some w => w.branch_id == b
        | none => false) t = (fun t => branchOf σ t == some b) t := by
    intro t _
    unfold branchOf
    cases h : lookupWarehouse σ t.warehouse_id <;> simp [h]
  have hcount : branchTransactionCount σ b =
      σ.transactions.countP (fun t => branchOf σ t == some b) := by
    unfold branchTransactionCount
    rw [List.filter_congr hfun, List.countP_eq_length_filter]
  unfold generate_custom_id
  rw [hcount]

theorem processLines_ok_length (t : Bool) (txid : Nat) :
    ∀ (ls : List LineInput) (assets : List FixedAsset) (lid : Nat)
      (assetsFin : List FixedAsset) (rows : List AssetTransaction),
      processLines t txid assets lid ls = Except.ok (assetsFin, rows) →
      rows.length = ls.length := by
  intro ls
  induction ls with
  | nil =>
      intro assets lid assetsFin rows h
      simp only [processLines] at h
      cases h
      rfl
  | cons l rest ih =>
      intro assets lid assetsFin rows h
      simp only [processLines] at h
      split at h
      · cases h
      · split at h
        · cases h
        · split at h
          · cases h
          next aR rR hR =>
            cases h
            simp [ih _ _ _ _ hR]

/-- Claim C3: whenever a create, update or delete operation returns an
error, the committed state is exactly what it was before the call; and
when a create with N lines succeeds, exactly N lines are stored (so a
failure on line k persists zero lines, never k − 1). -/
theorem error_atomicity (σ : DBState) (op : Op) :
    (∀ e, execOp σ op = Except.error e → applyOp σ op = σ) ∧
    (∀ req σ1, op = Op.create req → execOp σ op = Except.ok σ1 →
      σ1.asset_transactions.length =
        σ.asset_transactions.length + req.asset_transactions.length) := by
  constructor
  · intro e he
    simp [applyOp, he]
  · rintro req σ1 rfl hok
    simp only [execOp, createTransaction] at hok
    split at hok
    · cases hok
    · split at hok
      · cases hok
      · split at hok
        · cases hok
        · split at hok
          · cases hok
          next assetsFin rows hpl =>
            cases hok
            simp [List.length_append, processLines_ok_length _ _ _ _ _ _ _ hpl]

/-- Witness for C3: on a database holding five units of asset 1, an OUT
request whose second line exceeds the stock remaining after its first
line fails and the committed state is exactly the pre-call state, while
the successful one-line create stored exactly one line. -/
theorem error_atomicity_witness :
    applyOp (applyOp exState createIn5) (Op.create outReq2) =
      applyOp exState createIn5 ∧
    (applyOp exState createIn5).asset_transactions.length =
      exState.asset_transactions.length + 1 := by
  constructor
  · exact (error_atomicity (applyOp exState createIn5) (Op.create outReq2)).1
      (ApiError.insufficientQuantity 1) (by rfl)
  · exact (error_atomicity exState createIn5).2
      { warehouse_id := 1, transaction_type := true,
        asset_transactions := [{ asset_id := 1, quantity := 5, amount := none }] }
      (applyOp exState createIn5) rfl (by rfl)

/-- Claim C10: a create request with an empty `asset_transactions` list
is rejected by schema validation before any persistence — the committed
state is unchanged — and conversely every committed transaction had at
least one line at creation time. -/
theorem empty_lines_rejected (σ : DBState) (req : CreateReq) :
    (req.asset_transactions = [] →
      createTransaction σ req = Except.error ApiError.validationError ∧
      applyOp σ (Op.create req) = σ) ∧
    (∀ σ1, createTransaction σ req = Except.ok σ1 →
      req.asset_transactions ≠ []) := by
  have hschema : req.asset_transactions = [] → createSchemaOk σ req = false := by
    intro h
    simp [createSchemaOk, h]
  constructor
  · intro h
    have hc : createTransaction σ req = Except.error ApiError.validationError := by
      unfold createTransaction
      simp [hschema h]
    exact ⟨hc, by simp [applyOp, execOp, hc]⟩
  · intro σ1 hok h
    unfold createTransaction at hok
    simp [hschema h] at hok

/-- Witness for C10: the empty-lines create request on the concrete
example database errors out and leaves the state untouched. -/
theorem empty_lines_rejected_witness :
    (createTransaction exState
        { warehouse_id := 1, transaction_type := true, asset_transactions := [] } =
      Except.error ApiError.validationError ∧
    applyOp exState
        (Op.create { warehouse_id := 1, transaction_type := true,
                     asset_transactions := [] }) = exState) ∧
    ({ warehouse_id := 1, transaction_type := true,
       asset_transactions := [{ asset_id := 1, quantity := 5, amount := none }] } :
      CreateReq).asset_transactions ≠ [] :=
  ⟨(empty_lines_rejected exState
      { warehouse_id := 1, transaction_type := true, asset_transactions := [] }).1 rfl,
   (empty_lines_rejected exState
      { warehouse_id := 1, transaction_type := true,
        asset_transactions := [{ asset_id := 1, quantity := 5, amount := none }] }).2
      (applyOp exState createIn5) (by rfl)⟩

/-- Claim C1 (refuting evaluation): after create-IN(5 units of asset 1),
a header update flipping the direction to OUT, and a delete of the
transaction, the committed quantity of asset 1 is 10 while the sum over
its currently applied lines is 0 — the conservation invariant fails. -/
theorem conservation_violated_by_direction_flip :
    (lookupAsset (runOps exState [createIn5, flipTx1, Op.deleteTx 1]) 1).map
        (fun a => a.quantity) = some 10 ∧
    appliedLedgerSum (runOps exState [createIn5, flipTx1, Op.deleteTx 1]) 1 = 0 ∧
    (lookupAsset (runOps exState [createIn5, flipTx1, Op.deleteTx 1]) 1).map
        (fun a => a.quantity) ≠
      some (appliedLedgerSum (runOps exState [createIn5, flipTx1, Op.deleteTx 1]) 1) := by
  decide

/-- Claim C2 (refuting evaluation): create-IN(5), create-OUT(5), then
delete of the IN transaction commits a state in which asset 1 has
quantity −5: a committed state with a negative asset quantity. -/
theorem negative_quantity_committed :
    (lookupAsset (runOps exState [createIn5, createOut5, Op.deleteTx 1]) 1).map
        (fun a => a.quantity) = some (-5) ∧
    hasNegativeAsset (runOps exState [createIn5, createOut5, Op.deleteTx 1]) = true := by
  decide

/-- Claim C4 (refuting evaluation): with an applied IN line of five units
of asset 1, the header update flipping the direction to OUT succeeds and
changes the stored direction while leaving every asset quantity
untouched — no reversal or reapplication happens. -/
theorem direction_change_without_reversal :
    (lookupTransaction (runOps exState [createIn5]) 1).map
        (fun t => t.transaction_type) = some true ∧
    (lookupTransaction (applyOp (runOps exState [createIn5]) flipTx1) 1).map
        (fun t => t.transaction_type) = some false ∧
    (applyOp (runOps exState [createIn5]) flipTx1).assets =
      (runOps exState [createIn5]).assets := by
  decide

/-- Claim C5 (refuting evaluation): branch 1's sequence number 2 is
assigned to transaction 2 as `"1-2"`; after transaction 2 is deleted, a
later create assigns the same `"1-2"` to transaction 3 — a branch-scoped
sequence number is reused after a deletion. -/
theorem custom_id_sequence_reused :
    (lookupTransaction (runOps exState [createIn5, createIn5]) 2).map
        (fun t => t.custom_id) = some "1-2" ∧
    (lookupTransaction
        (runOps exState [createIn5, createIn5, Op.deleteTx 2, createIn5]) 3).map
        (fun t => t.custom_id) = some "1-2" := by
  decide

/-- Claim C6: validating a line fails with AssetNotFound exactly when the
referenced asset does not exist, with InvalidQuantity exactly when the
quantity is ≤ 0, with InvalidAmount exactly when an amount is present and
negative; for a field-valid line of an OUT-direction transaction it fails
with InsufficientStock exactly when the asset's current quantity is below
the line's quantity; and a line meeting none of these conditions passes
validation. -/
theorem line_validation_errors_spec (σ : DBState) (t : Bool) (l : LineInput) :
    (LineError.assetNotFound ∈ lineValidationErrors σ t l ↔
      lookupAsset σ l.asset_id = none) ∧
    (LineError.invalidQuantity ∈ lineValidationErrors σ t l ↔ l.quantity ≤ 0) ∧
    (LineError.invalidAmount ∈ lineValidationErrors σ t l ↔
      ∃ b, l.amount = some b ∧ b < 0) ∧
    (∀ a, lookupAsset σ l.asset_id = some a → 0 < l.quantity →
      (∀ b, l.amount = some b → 0 ≤ b) →
      (LineError.insufficientStock ∈ lineValidationErrors σ t l ↔
        t = false ∧ a.quantity < l.quantity)) ∧
    (lineValidationErrors σ t l = [] ↔
      ((lookupAsset σ l.asset_id).isSome ∧ 0 < l.quantity ∧
        (∀ b, l.amount = some b → 0 ≤ b) ∧
        (t = false → ∀ a, lookupAsset σ l.asset_id = some a →
          l.quantity ≤ a.quantity))) := by
  unfold lineValidationErrors schemaLineErrors
  rcases hA : lookupAsset σ l.asset_id with _ | a <;>
    rcases hAm : l.amount with _ | b <;>
      by_cases hq : l.quantity ≤ 0 <;>
        cases t <;>
          first
          | (by_cases hb : b < 0 <;>
              by_cases hs : a.quantity < l.quantity <;>
                simp_all [not_le, not_lt])
          | (by_cases hb : b < 0 <;>
              simp_all [not_le, not_lt])
          | (by_cases hs : a.quantity < l.quantity <;>
              simp_all [not_le, not_lt])
          | simp_all [not_le, not_lt]

/-- Witness for C6: on the example database after the IN movement (asset
1 holds five units), an OUT line requesting six units fails validation
with InsufficientStock. -/
theorem line_validation_errors_spec_witness :
    LineError.insufficientStock ∈
      lineValidationErrors (applyOp exState createIn5) false
        { asset_id := 1, quantity := 6, amount := none } := by
  have h := (line_validation_errors_spec (applyOp exState createIn5) false
      { asset_id := 1, quantity := 6, amount := none }).2.2.2.1
      { id := 1, quantity := 5 } (by decide) (by decide)
      (by intro b hb; cases hb)
  exact h.mpr ⟨rfl, by decide⟩

theorem inboundAmounts_pos (σ : DBState) (aid : Nat) :
    ∀ a ∈ inboundAmounts σ aid, 0 < a := by
  intro a ha
  unfold inboundAmounts at ha
  rw [List.mem_filterMap] at ha
  obtain ⟨l, _, hl⟩ := ha
  split at hl
  · split at hl
    · split at hl
      · split at hl
        · split at hl
          · cases hl
            assumption
          · cases hl
        · cases hl
      · cases hl
    · cases hl
  · cases hl

theorem abs_roundHalfEven_sub_le (x : ℚ) : |(roundHalfEven x : ℚ) - x| ≤ 1/2 := by
  have h1 : (⌊x⌋ : ℚ) ≤ x := Int.floor_le x
  have h2 : x < ⌊x⌋ + 1 := Int.lt_floor_add_one x
  simp only [roundHalfEven]
  split_ifs with ha hb hc <;>
    rw [abs_le] <;> constructor <;> push_cast <;> linarith

theorem abs_round2_sub_le (x : ℚ) : |round2 x - x| ≤ 1/200 := by
  have h := abs_roundHalfEven_sub_le (100 * x)
  have h2 : round2 x - x = ((roundHalfEven (100 * x) : ℚ) - 100 * x) / 100 := by
    unfold round2
    ring
  rw [h2, abs_div, abs_of_pos (by norm_num : (0:ℚ) < 100)]
  linarith

theorem inboundAmounts_avgExState :
    inboundAmounts avgExState 1 = [1/100, 1/100, 2/100] := by
  have h : lookupTransaction avgExState 1 =
      some { id := 1, custom_id := "1-1", warehouse_id := 1,
             transaction_type := true } := rfl
  unfold inboundAmounts
  rw [show avgExState.asset_transactions =
      [{ id := 1, transaction_id := 1, asset_id := 1, quantity := 1,
         amount := some (1/100), total_value := some (1/100) },
       { id := 2, transaction_id := 1, asset_id := 1, quantity := 1,
         amount := some (1/100), total_value := some (1/100) },
       { id := 3, transaction_id := 1, asset_id := 1, quantity := 2,
         amount := some (2/100), total_value := some (4/100) }] from rfl]
  simp [List.filterMap_cons, h, show (0:ℚ) < 1/100 by norm_num,
    show (0:ℚ) < 2/100 by norm_num]

theorem floor_four_thirds : ⌊(100 * (1/75 : ℚ))⌋ = 1 := by
  rw [show (100 * (1/75 : ℚ)) = 4/3 by norm_num, Int.floor_eq_iff]
  norm_num

theorem round2_one_div_75 : round2 (1/75 : ℚ) = 1/100 := by
  unfold round2 roundHalfEven
  rw [floor_four_thirds]
  norm_num

theorem averageInboundCostSpec_eq (σ : DBState) (aid : Nat)
    (h : inboundAmounts σ aid ≠ []) :
    averageInboundCostSpec σ aid =
      (inboundAmounts σ aid).sum / ((inboundAmounts σ aid).length : ℚ) := by
  unfold averageInboundCostSpec
  simp [h]

theorem asset_average_eq_round2 (σ : DBState) (aid : Nat)
    (h : inboundAmounts σ aid ≠ []) :
    asset_average σ aid = round2 (averageInboundCostSpec σ aid) := by
  have hsum : 0 < (inboundAmounts σ aid).sum :=
    List.sum_pos _ (inboundAmounts_pos σ aid) h
  have hlen : 0 < ((inboundAmounts σ aid).length : ℚ) := by
    have := List.length_pos.mpr h
    exact_mod_cast this
  have havg : 0 < (inboundAmounts σ aid).sum / ((inboundAmounts σ aid).length : ℚ) :=
    div_pos hsum hlen
  unfold asset_average
  rw [averageInboundCostSpec_eq σ aid h]
  simp [h, ne_of_gt havg]

theorem averageInboundCostSpec_avgExState :
    averageInboundCostSpec avgExState 1 = 1/75 := by
  rw [averageInboundCostSpec_eq avgExState 1 (by simp [inboundAmounts_avgExState]),
    inboundAmounts_avgExState]
  norm_num

theorem asset_average_avgExState : asset_average avgExState 1 = 1/100 := by
  rw [asset_average_eq_round2 avgExState 1 (by simp [inboundAmounts_avgExState]),
    averageInboundCostSpec_avgExState, round2_one_div_75]

/-- Claim C9 (refuting evaluation): with three qualifying inbound lines
of amounts 0.01, 0.01 and 0.02, the route returns 0.01 — the mean 1/75
rounded to two decimal places — which is not the arithmetic mean the
claim promises. -/
theorem asset_average_not_exact_mean :
    asset_average avgExState 1 = 1/100 ∧
    averageInboundCostSpec avgExState 1 = 1/75 ∧
    asset_average avgExState 1 ≠ averageInboundCostSpec avgExState 1 := by
  refine ⟨asset_average_avgExState, averageInboundCostSpec_avgExState, ?_⟩
  rw [asset_average_avgExState, averageInboundCostSpec_avgExState]
  norm_num

/-- Claim C9 as amended: `getAverageInboundCost(assetID)` returns 0 when
the asset has no line of an IN-direction transaction with positive
`unitAmount`, and otherwise returns the arithmetic mean of those
`unitAmount`s rounded to two decimal places (hence within 1/200 of the
exact mean). -/
theorem average_inbound_cost_rounded (σ : DBState) (aid : Nat) :
    (inboundAmounts σ aid = [] → asset_average σ aid = 0) ∧
    (inboundAmounts σ aid ≠ [] →
      asset_average σ aid = round2 (averageInboundCostSpec σ aid) ∧
      |asset_average σ aid - averageInboundCostSpec σ aid| ≤ 1/200) := by
  constructor
  · intro h
    unfold asset_average
    simp [h]
  · intro h
    refine ⟨asset_average_eq_round2 σ aid h, ?_⟩
    rw [asset_average_eq_round2 σ aid h]
    exact abs_round2_sub_le _

/-- Witness for C9 as amended: on the concrete three-line database the
route's result equals the two-decimal rounding of the exact mean and
lies within 1/200 of it. -/
theorem average_inbound_cost_rounded_witness :
    asset_average avgExState 1 = round2 (averageInboundCostSpec avgExState 1) ∧
    |asset_average avgExState 1 - averageInboundCostSpec avgExState 1| ≤ 1/200 :=
  (average_inbound_cost_rounded avgExState 1).2
    (by simp [inboundAmounts_avgExState])

theorem find?_append_of_some {α : Type} (p : α → Bool) :
    ∀ (l1 l2 : List α) (x : α), l1.find? p = some x →
      (l1 ++ l2).find? p = some x := by
  intro l1
  induction l1 with
  | nil => intro l2 x h; cases h
  | cons a tl ih =>
      intro l2 x h
      cases hp : p a <;> simp only [List.find?_cons, hp, List.cons_append] at h ⊢
      · exact ih l2 x h
      · exact h

theorem custom_id_patch (t : Transaction) (tid0 : Nat) (p : TxPatch) :
    (if t.id == tid0 then applyTxPatch t p else t).custom_id = t.custom_id := by
  cases h : (t.id == tid0) <;> simp [applyTxPatch]

theorem find?_id_map_patch (l : List Transaction) (tid0 x : Nat) (p : TxPatch) :
    (l.map (fun t => if t.id == tid0 then applyTxPatch t p else t)).find?
      (fun t => t.id == x) =
    (l.find? (fun t => t.id == x)).map
      (fun t => if t.id == tid0 then applyTxPatch t p else t) := by
  rw [List.find?_map]
  have hpred : ((fun t => t.id == x) ∘
      fun t => if t.id == tid0 then applyTxPatch t p else t) =
      fun t : Transaction => t.id == x := by
    funext t
    simp only [Function.comp_apply]
    cases h : (t.id == tid0) <;> simp [h, applyTxPatch]
  rw [hpred]

theorem customIds_map_patch (l : List Transaction) (tid0 : Nat) (p : TxPatch) :
    (l.map (fun t => if t.id == tid0 then applyTxPatch t p else t)).map
      (fun t => t.custom_id) = l.map (fun t => t.custom_id) := by
  rw [List.map_map]
  apply List.map_congr_left
  intro t _
  exact custom_id_patch t tid0 p

theorem find?_filter_keep (l : List Transaction) (tid x : Nat) (hx : x ≠ tid) :
    (l.filter (fun t => !(t.id == tid))).find? (fun t => t.id == x) =
    l.find? (fun t => t.id == x) := by
  induction l with
  | nil => rfl
  | cons a tl ih =>
      cases ha : (a.id == tid)
      · cases hx2 : (a.id == x) <;>
          simp [List.filter_cons, ha, List.find?_cons, hx2, ih]
      · have ha2 : a.id = tid := by simpa using ha
        have hx2 : (a.id == x) = false := by
          simp [ha2]
          omega
        simp [List.filter_cons, ha, List.find?_cons, hx2, ih]

theorem find?_filter_dropped (l : List Transaction) (tid : Nat) :
    (l.filter (fun t => !(t.id == tid))).find? (fun t => t.id == tid) = none := by
  rw [List.find?_eq_none]
  intro t ht
  have := (List.mem_filter.mp ht).2
  simpa using this

theorem updateAssetTransaction_transactions (σ : DBState) (lid : Nat)
    (p : LinePatch) (σ1 : DBState)
    (h : updateAssetTransaction σ lid p = Except.ok σ1) :
    σ1.transactions = σ.transactions := by
  unfold updateAssetTransaction at h
  simp only [] at h
  split at h
  · cases h
  · split at h
    · cases h
    · split at h
      · cases h
      · split at h
        · split at h
          · cases h
          · split at h
            · cases h
            · cases h; rfl
        · split at h
          · cases h; rfl
          · split at h
            · cases h; rfl
            · split at h
              · cases h
              · cases h; rfl

theorem deleteAssetTransaction_transactions (σ : DBState) (lid : Nat)
    (σ1 : DBState) (h : deleteAssetTransaction σ lid = Except.ok σ1) :
    σ1.transactions = σ.transactions := by
  unfold deleteAssetTransaction at h
  split at h
  · cases h
  · split at h
    · cases h
    · cases h; rfl

/-- Claim C5 as amended: in every committed state every two coexisting
transactions have distinct customIDs (the unique index rejects a
duplicate at insert), and no operation changes an existing transaction's
customID; but a branch-scoped sequence number freed by deleting the
branch's transactions can be assigned again to a later transaction. -/
theorem custom_id_unique_and_immutable (σ : DBState) (op : Op) :
    ((customIds σ).Nodup → (customIds (applyOp σ op)).Nodup) ∧
    (∀ tid t0 t1, lookupTransaction σ tid = some t0 →
      lookupTransaction (applyOp σ op) tid = some t1 →
      t1.custom_id = t0.custom_id) := by
  cases op with
  | create req =>
      cases hc : createTransaction σ req with
      | error e =>
          have hA : applyOp σ (Op.create req) = σ := by
            simp [applyOp, execOp, hc]
          rw [hA]
          refine ⟨fun h => h, fun tid t0 t1 h0 h1 => ?_⟩
          rw [h0] at h1
          cases h1
          rfl
      | ok σ1 =>
          have hA : applyOp σ (Op.create req) = σ1 := by
            simp [applyOp, execOp, hc]
          rw [hA]
          simp only [createTransaction] at hc
          split at hc
          · cases hc
          · split at hc
            · cases hc
            next w hw =>
              split at hc
              · cases hc
              next hany =>
                split at hc
                · cases hc
                next assetsFin rows hpl =>
                  cases hc
                  constructor
                  · intro hnd
                    show ((σ.transactions ++
                        [({ id := σ.next_transaction_id,
                            custom_id := generate_custom_id σ w.branch_id,
                            warehouse_id := req.warehouse_id,
                            transaction_type := req.transaction_type } :
                          Transaction)]).map
                        (fun t => t.custom_id)).Nodup
                    rw [List.map_append, List.nodup_append]
                    refine ⟨hnd, List.nodup_singleton _, ?_⟩
                    intro x hx hx2
                    simp only [List.map_cons, List.map_nil,
                      List.mem_singleton] at hx2
                    subst hx2
                    simp only [List.mem_map] at hx
                    obtain ⟨t, ht, hteq⟩ := hx
                    simp only [List.any_eq_true, not_exists, not_and,
                      Bool.not_eq_true] at hany
                    have := hany t ht
                    simp at this
                    exact this hteq
                  · intro tid t0 t1 h0 h1
                    unfold lookupTransaction at h0
                    replace h1 : (σ.transactions ++
                        [({ id := σ.next_transaction_id,
                            custom_id := generate_custom_id σ w.branch_id,
                            warehouse_id := req.warehouse_id,
                            transaction_type := req.transaction_type } :
                          Transaction)]).find?
                        (fun t => t.id == tid) = some t1 := h1
                    rw [find?_append_of_some _ _ _ _ h0] at h1
                    cases h1
                    rfl
  | updateTx tid0 p =>
      cases hc : updateTransaction σ tid0 p with
      | error e =>
          have hA : applyOp σ (Op.updateTx tid0 p) = σ := by
            simp [applyOp, execOp, hc]
          rw [hA]
          refine ⟨fun h => h, fun tid t0 t1 h0 h1 => ?_⟩
          rw [h0] at h1
          cases h1
          rfl
      | ok σ1 =>
          have hA : applyOp σ (Op.updateTx tid0 p) = σ1 := by
            simp [applyOp, execOp, hc]
          rw [hA]
          simp only [updateTransaction] at hc
          split at hc
          · cases hc
          · split at hc
            · cases hc
            · cases hc
              constructor
              · intro hnd
                show ((σ.transactions.map (fun t =>
                    if t.id == tid0 then applyTxPatch t p else t)).map
                    (fun t => t.custom_id)).Nodup
                rw [customIds_map_patch]
                exact hnd
              · intro tid t0 t1 h0 h1
                unfold lookupTransaction at h0
                replace h1 : (σ.transactions.map (fun t =>
                    if t.id == tid0 then applyTxPatch t p else t)).find?
                    (fun t => t.id == tid) = some t1 := h1
                rw [find?_id_map_patch, h0] at h1
                simp only [Option.map_some', Option.some.injEq] at h1
                rw [← h1]
                exact custom_id_patch t0 tid0 p
  | deleteTx tid0 =>
      cases hc : deleteTransaction σ tid0 with
      | error e =>
          have hA : applyOp σ (Op.deleteTx tid0) = σ := by
            simp [applyOp, execOp, hc]
          rw [hA]
          refine ⟨fun h => h, fun tid t0 t1 h0 h1 => ?_⟩
          rw [h0] at h1
          cases h1
          rfl
      | ok σ1 =>
          have hA : applyOp σ (Op.deleteTx tid0) = σ1 := by
            simp [applyOp, execOp, hc]
          rw [hA]
          simp only [deleteTransaction] at hc
          split at hc
          · cases hc
          · cases hc
            constructor
            · intro hnd
              show ((σ.transactions.filter (fun t => !(t.id == tid0))).map
                  (fun t => t.custom_id)).Nodup
              exact List.Nodup.sublist
                ((List.filter_sublist σ.transactions).map
                  (fun t => t.custom_id)) hnd
            · intro tid t0 t1 h0 h1
              unfold lookupTransaction at h0
              replace h1 : (σ.transactions.filter
                  (fun t => !(t.id == tid0))).find?
                  (fun t => t.id == tid) = some t1 := h1
              by_cases hx : tid = tid0
              · subst hx
                rw [find?_filter_dropped] at h1
                cases h1
              · rw [find?_filter_keep _ _ _ hx, h0] at h1
                cases h1
                rfl
  | updateLine lid p =>
      cases hc : updateAssetTransaction σ lid p with
      | error e =>
          have hA : applyOp σ (Op.updateLine lid p) = σ := by
            simp [applyOp, execOp, hc]
          rw [hA]
          refine ⟨fun h => h, fun tid t0 t1 h0 h1 => ?_⟩
          rw [h0] at h1
          cases h1
          rfl
      | ok σ1 =>
          have hA : applyOp σ (Op.updateLine lid p) = σ1 := by
            simp [applyOp, execOp, hc]
          rw [hA]
          have ht := updateAssetTransaction_transactions σ lid p σ1 hc
          constructor
          · intro hnd
            simpa [customIds, ht] using hnd
          · intro tid t0 t1 h0 h1
            unfold lookupTransaction at h0 h1
            rw [ht, h0] at h1
            cases h1
            rfl
  | deleteLine lid =>
      cases hc : deleteAssetTransaction σ lid with
      | error e =>
          have hA : applyOp σ (Op.deleteLine lid) = σ := by
            simp [applyOp, execOp, hc]
          rw [hA]
          refine ⟨fun h => h, fun tid t0 t1 h0 h1 => ?_⟩
          rw [h0] at h1
          cases h1
          rfl
      | ok σ1 =>
          have hA : applyOp σ (Op.deleteLine lid) = σ1 := by
            simp [applyOp, execOp, hc]
          rw [hA]
          have ht := deleteAssetTransaction_transactions σ lid σ1 hc
          constructor
          · intro hnd
            simpa [customIds, ht] using hnd
          · intro tid t0 t1 h0 h1
            unfold lookupTransaction at h0 h1
            rw [ht, h0] at h1
            cases h1
            rfl

/-- Witness for C5 as amended: after one create the customIDs are
distinct, and the header update flipping transaction 1's direction keeps
its customID. -/
theorem custom_id_unique_and_immutable_witness :
    (customIds (applyOp exState createIn5)).Nodup ∧
    Transaction.custom_id
        { id := 1, custom_id := "1-1", warehouse_id := 1,
          transaction_type := false } =
      Transaction.custom_id
        { id := 1, custom_id := "1-1", warehouse_id := 1,
          transaction_type := true } := by
  constructor
  · exact (custom_id_unique_and_immutable exState createIn5).1 (by decide)
  · exact (custom_id_unique_and_immutable (applyOp exState createIn5) flipTx1).2
      1 _ _ (by decide) (by decide)

end FixedAssets
